import Mathlib

/-!
Verification of the freshservice ticket creator core (`ticket_creator.py`):
a shallow embedding of the transport/retry layer (`make_request`), the
category-tree traversal (`traverse_category`), ticket submission
(`create_ticket_async`) and user lookup (`get_user_info`), with theorems
settling the specification claims about them.
-/

namespace TicketCreator

/-- A Python value, as far as the script manipulates them: `None`, booleans,
integers, strings, lists and string-keyed dicts (insertion-ordered, modelled
as association lists). -/
inductive PyVal where
| pyNone : PyVal
| pyBool : Bool → PyVal
| pyInt : Int → PyVal
| pyStr : String → PyVal
| pyList : List PyVal → PyVal
| pyDict : List (String × PyVal) → PyVal

/-- Python truthiness: `None`, `False`, `0`, `""`, `[]` and `{}` are falsy. -/
def truthy : PyVal → Bool
| .pyNone => false
| .pyBool b => b
| .pyInt n => n != 0
| .pyStr s => !s.isEmpty
| .pyList xs => !xs.isEmpty
| .pyDict es => !es.isEmpty

/-- `isinstance(v, dict)`. -/
def isDictVal : PyVal → Bool
| .pyDict _ => true
| _ => false

/-- `isinstance(v, list)`. -/
def isListVal : PyVal → Bool
| .pyList _ => true
| _ => false

/-- The entries of a dict value (empty list on non-dicts; only used behind an
`isDictVal` guard, mirroring the source). -/
def dictEntries : PyVal → List (String × PyVal)
| .pyDict es => es
| _ => []

/-- The items of a list value (empty on non-lists; only used behind an
`isListVal` guard, mirroring the source). -/
def listItems : PyVal → List PyVal
| .pyList xs => xs
| _ => []

/-- The interactive operator behind the `pick` library: at each prompt the
operator picks some option, modelled as an index choice that may depend on
the offered options and the prompt. One field for the string-option prompts
(category and sub-category keys), one for the item-level prompt whose options
are arbitrary values. -/
structure Chooser where
  chooseStr : List String → String → Nat
  chooseVal : List PyVal → String → Nat

/-- The error raised by the `pick` library when handed an empty option list
(`ValueError: options should not be an empty list`). -/
inductive PickError where
| valueError : PickError

/-- `pick(options, prompt)` on string options: refuses an empty option list
with `ValueError`, otherwise returns the option the operator selected (the
chooser index is reduced mod the length, so every operator behaviour is
covered and the selection is always one of the offered options). -/
def pickStr (c : Chooser) (options : List String) (prompt : String) :
    Except PickError String :=
  if h : options.length = 0 then .error .valueError
  else .ok (options.get ⟨c.chooseStr options prompt % options.length,
    Nat.mod_lt _ (Nat.pos_of_ne_zero h)⟩)

/-- `pick(options, prompt)` on arbitrary-value options (the item-category
level picks directly from the stored list). -/
def pickVal (c : Chooser) (options : List PyVal) (prompt : String) :
    Except PickError PyVal :=
  if h : options.length = 0 then .error .valueError
  else .ok (options.get ⟨c.chooseVal options prompt % options.length,
    Nat.mod_lt _ (Nat.pos_of_ne_zero h)⟩)

/-- Errors escaping `traverse_category`: a `pick` failure, or a `KeyError`
from dict indexing. -/
inductive TravError where
| pickFail : PickError → TravError
| keyError : TravError

/-- Python dict indexing `d[k]`: the value, or `KeyError`. -/
def dictIndex (d : List (String × PyVal)) (k : String) : Except TravError PyVal :=
  match d.lookup k with
  | some v => .ok v
  | none => .error .keyError

/-- The selection path accumulated by `traverse_category`: the dict
`path` with its three optional keys. -/
structure SelectionPath where
  category_name : Option String
  sub_category_name : Option String
  item_category_name : Option PyVal

/-- Exception propagation: continue with the value of `x`, or stop with the
(possibly converted) exception — the semantics of an uncaught raise inside
straight-line Python code. -/
def onOk {ε α β : Type} (x : Except ε α) (err : ε → β) (f : α → β) : β :=
  match x with
  | .error e => err e
  | .ok y => f y

/-- `traverse_category(category_tree)`: pick a category from the top-level
keys; if its value is a truthy dict, pick a sub-category from that dict with
a non-empty key list; if the sub-category value is a truthy non-empty list,
pick an item category from it. The chosen names are collected in the path. -/
def traverse_category (c : Chooser) (category_tree : List (String × PyVal)) :
    Except TravError SelectionPath :=
  onOk (pickStr c (category_tree.map Prod.fst) ("Select category:"))
      (fun e => .error (.pickFail e)) fun selected_category_name =>
  onOk (dictIndex category_tree selected_category_name) .error fun selected_category =>
  if truthy selected_category && isDictVal selected_category then
    let sub_category_options := (dictEntries selected_category).map Prod.fst
    if sub_category_options.isEmpty then
      .ok ⟨some selected_category_name, none, none⟩
    else
      onOk (pickStr c sub_category_options
          ("Select sub-category for " ++ selected_category_name ++ ":"))
          (fun e => .error (.pickFail e)) fun selected_sub_category_name =>
      onOk (dictIndex (dictEntries selected_category) selected_sub_category_name)
          .error fun selected_sub_category =>
      if truthy selected_sub_category && isListVal selected_sub_category &&
          !(listItems selected_sub_category).isEmpty then
        onOk (pickVal c (listItems selected_sub_category)
            ("Select item category for " ++ selected_sub_category_name ++ ":"))
            (fun e => .error (.pickFail e)) fun selection =>
        .ok ⟨some selected_category_name, some selected_sub_category_name, some selection⟩
      else
        .ok ⟨some selected_category_name, some selected_sub_category_name, none⟩
  else
    .ok ⟨some selected_category_name, none, none⟩

/-- An operator that always picks the first offered option. -/
def firstChooser : Chooser := ⟨fun _ _ => 0, fun _ _ => 0⟩

/-- `MAX_RETRIES = 3`. -/
def MAX_RETRIES : Nat := 3

/-- `RETRY_DELAY = 2` (seconds, the base delay). -/
def RETRY_DELAY : Nat := 2

/-- What `await response.json()` would do on one response, following
aiohttp: with a JSON content type it parses the body, yielding the decoded
value or raising `json.JSONDecodeError` when the body is undecodable; with a
non-JSON content type it raises `aiohttp.ContentTypeError` — a subclass of
`aiohttp.ClientError` — without attempting to parse. -/
inductive JsonOutcome where
| decoded : PyVal → JsonOutcome
| decodeError : JsonOutcome
| contentTypeError : String → JsonOutcome

/-- What one attempt of `session.request` yields: either an HTTP response
(status, body text, and what JSON-decoding the body would do), or an
`aiohttp.ClientError` transport fault (connection error / timeout) carrying
its message. -/
inductive AttemptOutcome where
| httpResponse : Nat → String → JsonOutcome → AttemptOutcome
| clientError : String → AttemptOutcome

/-- The `APIError` values `make_request` can raise, one constructor per raise
site, carrying the data interpolated into each message. -/
inductive APIError where
| notFound : APIError
| authFailed : APIError
| apiStatus : Nat → String → APIError
| invalidJson : APIError
| exhausted : Nat → String → APIError

/-- The exact message string of each `APIError` raise site. -/
def APIError.message : APIError → String
| .notFound =>
    "Resource not found. Please verify your Freshservice domain and endpoint configuration."
| .authFailed => "Authentication failed. Please check your API key."
| .apiStatus status text => "API Error " ++ toString status ++ ": " ++ text
| .invalidJson => "Invalid JSON response from API"
| .exhausted n cause =>
    "Request failed after " ++ toString n ++ " attempts: " ++ cause

/-- How one iteration of the `try` body of `make_request` exits: it returns
a decoded value, raises an `APIError` (which escapes the loop, since
`APIError` is not an `aiohttp.ClientError`), or raises an
`aiohttp.ClientError` (which the `except` clause catches and retries). -/
inductive BodyOutcome where
| ret : PyVal → BodyOutcome
| apiError : APIError → BodyOutcome
| clientFault : String → BodyOutcome

/-- The `try` body of one attempt: a transport fault at request time is a
client fault; on a response, status 404 and 401 raise their dedicated
errors, any other status at or above 400 raises the generic error carrying
status and body text; below 400 the body is JSON-decoded — a decoded value
is returned, `json.JSONDecodeError` is caught and re-raised as the
invalid-JSON `APIError`, while a non-JSON content type raises
`aiohttp.ContentTypeError`, a client fault like a transport error. -/
def attemptBody : AttemptOutcome → BodyOutcome
| .clientError msg => .clientFault msg
| .httpResponse status text jsonOut =>
  if status = 404 then .apiError .notFound
  else if status = 401 then .apiError .authFailed
  else if 400 ≤ status then .apiError (.apiStatus status text)
  else
    match jsonOut with
    | .decoded v => .ret v
    | .decodeError => .apiError .invalidJson
    | .contentTypeError msg => .clientFault msg

/-- The observable outcome of one `make_request` call: the returned value or
raised error (`none` only when the `for` loop falls through, impossible for a
positive retry budget), how many requests were issued, and the sleeps
performed between attempts, in order. -/
structure RunResult where
  result : Option (Except APIError PyVal)
  attemptsMade : Nat
  sleeps : List Nat

/-- The retry loop of `make_request`, `for attempt in range(MAX_RETRIES)`:
each iteration runs the `try` body; a returned value or a raised `APIError`
leaves the loop at once (the `except aiohttp.ClientError` clause does not
catch an `APIError`); a client fault — transport error or `ContentTypeError`
— on the last attempt raises the exhaustion error wrapping its message, and
otherwise sleeps `RETRY_DELAY * (attempt + 1)` and retries. `remaining`
counts the iterations left (`maxR - attempt` at every call). -/
def make_request_loop (transport : Nat → AttemptOutcome) (maxR delay : Nat) :
    Nat → Nat → List Nat → Nat → RunResult
| _attempt, 0, sleeps, made => ⟨none, made, sleeps⟩
| attempt, remaining + 1, sleeps, made =>
  match attemptBody (transport attempt) with
  | .ret v => ⟨some (.ok v), made + 1, sleeps⟩
  | .apiError e => ⟨some (.error e), made + 1, sleeps⟩
  | .clientFault msg =>
    if attempt = maxR - 1 then
      ⟨some (.error (.exhausted maxR msg)), made + 1, sleeps⟩
    else
      make_request_loop transport maxR delay (attempt + 1) remaining
        (sleeps ++ [delay * (attempt + 1)]) (made + 1)

/-- `make_request(session, method, url, **kwargs)`, abstracted over the
transport: what each attempt would yield is given by `transport`. -/
def make_request (transport : Nat → AttemptOutcome) : RunResult :=
  make_request_loop transport MAX_RETRIES RETRY_DELAY 0 MAX_RETRIES [] 0

/-- `os.path.basename` on POSIX paths: the part after the last slash
(empty when the path ends in a slash). -/
def basename (p : String) : String :=
  String.mk (p.data.foldl (fun cur ch => if ch = '/' then [] else cur ++ [ch]) [])

/-- A value stored in one `aiohttp.FormData` field: either the serialized
`ticket_data` object (the `json.dumps` payload of the `input_data` field) or
an attached file part carrying the filename it is sent under. -/
inductive FormValue where
| textPayload : List (String × PyVal) → FormValue
| filePart : String → FormValue

/-- The body of the ticket-creation request: a plain JSON object, or a
multipart form given as its ordered (field name, value) pairs. -/
inductive RequestBody where
| jsonBody : List (String × PyVal) → RequestBody
| multipart : List (String × FormValue) → RequestBody

/-- The request issued by `create_ticket_async` together with the warnings it
printed for skipped attachments. -/
structure TicketRequest where
  method : String
  endpoint : String
  body : RequestBody
  warnings : List String

/-- The `summary` string: `"Request for {first} {last}: "` followed by the
description, truncated to its first 30 characters plus `"..."` when longer
than 30 characters. -/
def makeSummary (first_name last_name description : String) : String :=
  "Request for " ++ first_name ++ " " ++ last_name ++ ": " ++
    (if description.length > 30 then description.take 30 ++ "..." else description)

/-- The `ticket_data` dict built by `create_ticket_async`, in source order.
`status` is fixed at 2 (Open) and `source` at 2 (Portal). -/
def ticket_data (email subject description : String) (priority : Int)
    (category sub_category : String) (item_category : Option String)
    (workspace_id : Int) : List (String × PyVal) :=
  [("email", .pyStr email),
   ("subject", .pyStr subject),
   ("description", .pyStr description),
   ("status", .pyInt 2),
   ("priority", .pyInt priority),
   ("category", .pyStr category),
   ("sub_category", .pyStr sub_category),
   ("item_category", match item_category with | some s => .pyStr s | none => .pyNone),
   ("workspace_id", .pyInt workspace_id),
   ("source", .pyInt 2)]

/-- `create_ticket_async`, abstracted over the filesystem (`isFile` answers
`os.path.isfile`): with a truthy (non-empty) attachment list the body is a
multipart form holding `input_data` followed by one `attachments[]` part per
existing file under its base filename, paths that are not files being skipped
with a warning; otherwise the body is the plain JSON `ticket_data` object. -/
def create_ticket_async (isFile : String → Bool)
    (first_name last_name email description category sub_category : String)
    (item_category : Option String) (priority workspace_id : Int)
    (attachments : List String) : TicketRequest :=
  let summary := makeSummary first_name last_name description
  let td := ticket_data email summary description priority category sub_category
    item_category workspace_id
  if attachments.isEmpty then
    ⟨"POST", "/tickets", .jsonBody td, []⟩
  else
    ⟨"POST", "/tickets",
      .multipart (("input_data", .textPayload td) ::
        attachments.filterMap fun p =>
          if isFile p then some ("attachments[]", .filePart (basename p)) else none),
      attachments.filter fun p => !isFile p⟩

/-- An exception live inside the `try` block of `get_user_info`: a raised
`APIError`, or one of the built-in exceptions its own data handling can
raise. All are caught by its `except Exception` clause. -/
inductive PyExc where
| api : APIError → PyExc
| typeError : PyExc
| indexError : PyExc
| keyError : PyExc
| attributeError : PyExc

/-- Run one `make_request` and view it from the caller: a returned value is
the data (a loop fall-through would be Python `None`), a raised `APIError`
is an in-flight exception. -/
def liftRequest (r : RunResult) : Except PyExc PyVal :=
  match r.result with
  | some (.ok v) => .ok v
  | some (.error e) => .error (.api e)
  | none => .ok .pyNone

/-- `data[k]` with a `None` default view used below the truthiness guard
(the guard has already established the key is present). -/
def lookupKey (data : PyVal) (k : String) : PyVal :=
  ((dictEntries data).lookup k).getD .pyNone

/-- The guard `data and isinstance(data, dict) and k in data and data[k]`. -/
def hasUsersUnder (data : PyVal) (k : String) : Bool :=
  truthy data && isDictVal data && ((dictEntries data).lookup k).isSome &&
    truthy (lookupKey data k)

/-- Python `v[0]` as `get_user_info` applies it to the users value: the head
of a list, the first character of a string, `KeyError` on a dict (0 is not a
key), `IndexError` on an empty sequence, `TypeError` otherwise. -/
def pyIndexZero : PyVal → Except PyExc PyVal
| .pyList [] => .error .indexError
| .pyList (h :: _) => .ok h
| .pyStr s =>
  match s.data with
  | [] => .error .indexError
  | ch :: _ => .ok (.pyStr (String.mk [ch]))
| .pyDict _ => .error .keyError
| _ => .error .typeError

/-- Build the returned user dict from `user.get(...)` calls: `.get` with the
given defaults on a dict, `AttributeError` on anything else. -/
def extractUser (user : PyVal) (email : String) : Except PyExc PyVal :=
  match user with
  | .pyDict es =>
    .ok (.pyDict [("first_name", (es.lookup "first_name").getD (.pyStr (""))),
                  ("last_name", (es.lookup "last_name").getD (.pyStr (""))),
                  ("email", .pyStr email),
                  ("id", (es.lookup "id").getD .pyNone)])
  | _ => .error .attributeError

/-- The `try` body of `get_user_info`: look the email up under `requesters`,
fall back to `agents`, return the built user dict, or `None` when neither
lookup matched. -/
def get_user_info_body (reqTransport agTransport : Nat → AttemptOutcome)
    (email : String) : Except PyExc (Option PyVal) :=
  onOk (liftRequest (make_request reqTransport)) .error fun data =>
  if hasUsersUnder data ("requesters") then
    onOk (pyIndexZero (lookupKey data ("requesters"))) .error fun user =>
    onOk (extractUser user email) .error fun r => .ok (some r)
  else
    onOk (liftRequest (make_request agTransport)) .error fun data2 =>
    if hasUsersUnder data2 ("agents") then
      onOk (pyIndexZero (lookupKey data2 ("agents"))) .error fun user =>
      onOk (extractUser user email) .error fun r => .ok (some r)
    else .ok none

/-- `get_user_info(email)`: the `try` body wrapped in `except Exception`,
which logs, prints, and returns `None` — every exception is converted into
the non-error result `None`. -/
def get_user_info (reqTransport agTransport : Nat → AttemptOutcome)
    (email : String) : Option PyVal :=
  onOk (get_user_info_body reqTransport agTransport email) (fun _ => none) fun r => r

/-- A transport on which every attempt hits a connection fault. -/
def failingTransport : Nat → AttemptOutcome :=
  fun _ => .clientError ("connection refused")

/-- A transport on which every attempt yields a 200 response whose body is
not JSON and is served under a non-JSON content type, so `response.json()`
raises `aiohttp.ContentTypeError`. -/
def htmlTransport : Nat → AttemptOutcome :=
  fun _ => .httpResponse 200 ("<html>") (.contentTypeError ("unexpected mimetype"))

/-! ### Step lemmas for the retry loop -/

/-- A `try` body that raises an `APIError` leaves the loop with that error
at once, with one more request issued and no new sleep. -/
theorem make_request_loop_api_error (transport : Nat → AttemptOutcome)
    (maxR delay attempt remaining : Nat) (sleeps : List Nat) (made : Nat)
    (e : APIError) (h : attemptBody (transport attempt) = .apiError e) :
    make_request_loop transport maxR delay attempt (remaining + 1) sleeps made =
      ⟨some (.error e), made + 1, sleeps⟩ := by
  rw [make_request_loop, h]

/-- One loop iteration whose `try` body raises a client fault before the
last attempt sleeps `delay * (attempt + 1)` and retries. -/
theorem make_request_loop_fault_retry (transport : Nat → AttemptOutcome)
    (maxR delay attempt remaining : Nat) (sleeps : List Nat) (made : Nat)
    (msg : String) (h : attemptBody (transport attempt) = .clientFault msg)
    (hne : attempt ≠ maxR - 1) :
    make_request_loop transport maxR delay attempt (remaining + 1) sleeps made =
      make_request_loop transport maxR delay (attempt + 1) remaining
        (sleeps ++ [delay * (attempt + 1)]) (made + 1) := by
  rw [make_request_loop, h]
  simp [hne]

/-- One loop iteration whose `try` body raises a client fault on the last
attempt raises the exhaustion error wrapping that fault. -/
theorem make_request_loop_fault_last (transport : Nat → AttemptOutcome)
    (maxR delay attempt remaining : Nat) (sleeps : List Nat) (made : Nat)
    (msg : String) (h : attemptBody (transport attempt) = .clientFault msg)
    (heq : attempt = maxR - 1) :
    make_request_loop transport maxR delay attempt (remaining + 1) sleeps made =
      ⟨some (.error (.exhausted maxR msg)), made + 1, sleeps⟩ := by
  rw [make_request_loop, h]
  simp [heq]

/-- On an error status the `try` body raises the mapped `APIError` before
any JSON decoding, whatever decoding would have done. -/
theorem attemptBody_error_status (status : Nat) (text : String)
    (jsonOut : JsonOutcome) (h4 : 400 ≤ status) :
    attemptBody (.httpResponse status text jsonOut) =
      .apiError
        (if status = 404 then .notFound
         else if status = 401 then .authFailed
         else .apiStatus status text) := by
  unfold attemptBody
  by_cases h404 : status = 404
  · simp [h404]
  · by_cases h401 : status = 401
    · simp [h404, h401]
    · simp [h404, h401, h4]

/-- On a sub-400 status whose body raises `json.JSONDecodeError`, the `try`
body re-raises the invalid-JSON `APIError`. -/
theorem attemptBody_decode_error (status : Nat) (text : String)
    (hlt : status < 400) :
    attemptBody (.httpResponse status text .decodeError) =
      .apiError .invalidJson := by
  have h404 : status ≠ 404 := by omega
  have h401 : status ≠ 401 := by omega
  have h400 : ¬ 400 ≤ status := by omega
  simp [attemptBody, h404, h401, h400]

/-- On a sub-400 status with a non-JSON content type, `response.json()`
raises `aiohttp.ContentTypeError`, which the `try` body surfaces as a client
fault — subject to retry, not classified as a decode error. -/
theorem attemptBody_content_type (status : Nat) (text m : String)
    (hlt : status < 400) :
    attemptBody (.httpResponse status text (.contentTypeError m)) =
      .clientFault m := by
  have h404 : status ≠ 404 := by omega
  have h401 : status ≠ 401 := by omega
  have h400 : ¬ 400 ≤ status := by omega
  simp [attemptBody, h404, h401, h400]

/-! ### Claim theorems: transport/retry layer -/

/-- C1: when the first attempt yields an HTTP response with status at least
400, `make_request` fails exactly once — one request issued, no sleeps, hence
no retry — with the mapped error: 404 to the not-found error, 401 to the
authentication error, anything else to the generic error carrying the raw
status and body text. -/
theorem make_request_error_status_no_retry (transport : Nat → AttemptOutcome)
    (status : Nat) (text : String) (jsonOut : JsonOutcome)
    (h0 : transport 0 = .httpResponse status text jsonOut)
    (h4 : 400 ≤ status) :
    make_request transport =
      ⟨some (.error
        (if status = 404 then .notFound
         else if status = 401 then .authFailed
         else .apiStatus status text)), 1, []⟩ := by
  have e3 : MAX_RETRIES = 2 + 1 := rfl
  have hb : attemptBody (transport 0) =
      .apiError
        (if status = 404 then .notFound
         else if status = 401 then .authFailed
         else .apiStatus status text) := by
    rw [h0]
    exact attemptBody_error_status status text jsonOut h4
  rw [make_request, e3, make_request_loop_api_error transport _ _ _ _ _ _ _ hb]

/-- C1 witness: a 500 response with body text is rejected at once as the
generic API error, with one attempt and no sleeps — even though its content
type is not JSON. -/
theorem make_request_error_status_no_retry_witness :
    400 ≤ 500 ∧
      make_request (fun _ => .httpResponse 500 ("oops") (.contentTypeError ("html"))) =
        ⟨some (.error (.apiStatus 500 ("oops"))), 1, []⟩ := by
  refine ⟨by decide, ?_⟩
  have h := make_request_error_status_no_retry
    (fun _ => .httpResponse 500 ("oops") (.contentTypeError ("html"))) 500 ("oops")
    (.contentTypeError ("html")) rfl (by decide)
  simpa using h

/-- C2: when every attempt hits a transport fault, `make_request` issues
exactly `MAX_RETRIES = 3` requests, sleeps `RETRY_DELAY * 1` between attempts
1 and 2 and `RETRY_DELAY * 2` between attempts 2 and 3 (delay proportional to
the attempt number), and raises the exhaustion error wrapping the last
fault's message. -/
theorem make_request_transport_exhausted (transport : Nat → AttemptOutcome)
    (m0 m1 m2 : String)
    (h0 : transport 0 = .clientError m0)
    (h1 : transport 1 = .clientError m1)
    (h2 : transport 2 = .clientError m2) :
    make_request transport =
      ⟨some (.error (.exhausted MAX_RETRIES m2)), MAX_RETRIES,
        [RETRY_DELAY * 1, RETRY_DELAY * 2]⟩ := by
  have e3 : MAX_RETRIES = 2 + 1 := rfl
  have e2 : (2 : Nat) = 1 + 1 := rfl
  have hb0 : attemptBody (transport 0) = .clientFault m0 := by rw [h0]; rfl
  have hb1 : attemptBody (transport 1) = .clientFault m1 := by rw [h1]; rfl
  have hb2 : attemptBody (transport 2) = .clientFault m2 := by rw [h2]; rfl
  rw [make_request, e3,
    make_request_loop_fault_retry transport _ _ _ _ _ _ _ hb0 (by decide), e2,
    make_request_loop_fault_retry transport _ _ _ _ _ _ _ hb1 (by decide),
    make_request_loop_fault_last transport _ _ _ _ _ _ _ hb2 (by decide)]
  simp [MAX_RETRIES, RETRY_DELAY]

/-- C2 witness: three consecutive connection faults give the exhaustion error
wrapping the last message, 3 attempts, and sleeps of 2 and 4 seconds. -/
theorem make_request_transport_exhausted_witness :
    make_request (fun n => .clientError ("fault " ++ toString n)) =
      ⟨some (.error (.exhausted MAX_RETRIES ("fault 2"))), MAX_RETRIES,
        [RETRY_DELAY * 1, RETRY_DELAY * 2]⟩ := by
  exact make_request_transport_exhausted
    (fun n => .clientError ("fault " ++ toString n)) ("fault 0") ("fault 1")
    ("fault 2") rfl rfl rfl

/-- C8 counterexample: a 200 response whose body cannot be decoded as JSON
because it is served under a non-JSON content type does NOT fail with the
decode error: `response.json()` raises `aiohttp.ContentTypeError`, a client
fault that the loop retries, so the call fails with the exhaustion
`APIError` after all three attempts instead. -/
theorem make_request_undecodable_not_decode_error :
    make_request htmlTransport =
      ⟨some (.error (.exhausted MAX_RETRIES ("unexpected mimetype"))), MAX_RETRIES,
        [RETRY_DELAY * 1, RETRY_DELAY * 2]⟩ ∧
    (make_request htmlTransport).result ≠ some (.error .invalidJson) := by
  constructor
  · rfl
  · intro hcontra
    have h1 : (make_request htmlTransport).result =
        some (.error (.exhausted MAX_RETRIES ("unexpected mimetype"))) := rfl
    rw [h1] at hcontra
    injection hcontra with h2
    injection h2 with h3
    exact APIError.noConfusion h3

/-- C8 (amended): for a response with status below 400, the failure depends
on how `response.json()` fails — a body under a JSON content type that does
not parse raises `json.JSONDecodeError`, and `make_request` fails exactly
once with the invalid-JSON `APIError` (the decode error), never an
unclassified crash; a non-JSON content type instead raises
`aiohttp.ContentTypeError`, a client fault that is retried like a transport
error and, when persistent, surfaces as the exhaustion `APIError`. -/
theorem make_request_undecodable_body (transport : Nat → AttemptOutcome)
    (status : Nat) (text m : String) (hlt : status < 400) :
    (transport 0 = .httpResponse status text .decodeError →
      make_request transport = ⟨some (.error .invalidJson), 1, []⟩) ∧
    ((∀ i, i < MAX_RETRIES →
        transport i = .httpResponse status text (.contentTypeError m)) →
      make_request transport =
        ⟨some (.error (.exhausted MAX_RETRIES m)), MAX_RETRIES,
          [RETRY_DELAY * 1, RETRY_DELAY * 2]⟩) := by
  constructor
  · intro h0
    have e3 : MAX_RETRIES = 2 + 1 := rfl
    have hb : attemptBody (transport 0) = .apiError .invalidJson := by
      rw [h0]
      exact attemptBody_decode_error status text hlt
    rw [make_request, e3, make_request_loop_api_error transport _ _ _ _ _ _ _ hb]
  · intro hall
    have e3 : MAX_RETRIES = 2 + 1 := rfl
    have e2 : (2 : Nat) = 1 + 1 := rfl
    have hb0 : attemptBody (transport 0) = .clientFault m := by
      rw [hall 0 (by decide)]
      exact attemptBody_content_type status text m hlt
    have hb1 : attemptBody (transport 1) = .clientFault m := by
      rw [hall 1 (by decide)]
      exact attemptBody_content_type status text m hlt
    have hb2 : attemptBody (transport 2) = .clientFault m := by
      rw [hall 2 (by decide)]
      exact attemptBody_content_type status text m hlt
    rw [make_request, e3,
      make_request_loop_fault_retry transport _ _ _ _ _ _ _ hb0 (by decide), e2,
      make_request_loop_fault_retry transport _ _ _ _ _ _ _ hb1 (by decide),
      make_request_loop_fault_last transport _ _ _ _ _ _ _ hb2 (by decide)]
    simp [MAX_RETRIES, RETRY_DELAY]

/-- C8 witness: a 200 response under a JSON content type with an unparsable
body fails with the invalid-JSON error after one attempt. -/
theorem make_request_undecodable_body_witness :
    (200 : Nat) < 400 ∧
      make_request (fun _ => .httpResponse 200 ("nope") .decodeError) =
        ⟨some (.error .invalidJson), 1, []⟩ :=
  ⟨by decide,
    (make_request_undecodable_body (fun _ => .httpResponse 200 ("nope") .decodeError)
      200 ("nope") ("m") (by decide)).1 rfl⟩

/-! ### Claim theorems: category traversal -/

/-- C3 (code bug): on the empty category tree, `traverse_category` does not
return an empty path — it hands `pick` an empty option list, which raises
`ValueError`, for every chooser. -/
theorem traverse_category_empty_tree_raises (c : Chooser) :
    traverse_category c [] = .error (.pickFail .valueError) := rfl

/-- C5: on the tree with category A, sub-category B and item categories
C and D, a chooser that always picks the first offered option returns the
path (A, B, C). -/
theorem traverse_category_full_descent :
    traverse_category firstChooser
        [("A", .pyDict [("B", .pyList [.pyStr ("C"), .pyStr ("D")])])] =
      .ok ⟨some ("A"), some ("B"), some (.pyStr ("C"))⟩ := rfl

/-! ### Helper lemmas for the traversal -/

/-- `onOk` on a success continues with the value. -/
theorem onOk_ok {ε α β : Type} (a : α) (err : ε → β) (f : α → β) :
    onOk (.ok a) err f = f a := rfl

/-- `onOk` on an exception stops with it. -/
theorem onOk_error {ε α β : Type} (e : ε) (err : ε → β) (f : α → β) :
    onOk (.error e) err f = err e := rfl

/-- `pick` on a non-empty string option list succeeds with one of the
offered options. -/
theorem pickStr_mem (c : Chooser) (options : List String) (prompt : String)
    (h : options ≠ []) :
    ∃ s, pickStr c options prompt = .ok s ∧ s ∈ options := by
  unfold pickStr
  rw [dif_neg (by simpa using h)]
  exact ⟨_, rfl, List.get_mem _ _ _⟩

/-- `pick` on a non-empty value option list succeeds. -/
theorem pickVal_ok (c : Chooser) (options : List PyVal) (prompt : String)
    (h : options ≠ []) :
    ∃ x, pickVal c options prompt = .ok x := by
  unfold pickVal
  rw [dif_neg (by simpa using h)]
  exact ⟨_, rfl⟩

/-- `pick` on a one-option list returns that option, for every chooser. -/
theorem pickStr_singleton (c : Chooser) (o : String) (prompt : String) :
    pickStr c [o] prompt = .ok o := by
  unfold pickStr
  rw [dif_neg (by simp)]
  congr 1
  have h : c.chooseStr [o] prompt % [o].length = 0 := Nat.mod_one _
  simp [List.get_eq_getElem, h]

/-- Indexing a dict at one of its keys succeeds. -/
theorem dictIndex_ok (d : List (String × PyVal)) (k : String)
    (h : k ∈ d.map Prod.fst) : ∃ v, dictIndex d k = .ok v := by
  induction d with
  | nil => simp at h
  | cons a t ih =>
    unfold dictIndex
    rw [List.lookup]
    cases hk : (k == a.1) with
    | false =>
      show ∃ v, dictIndex t k = .ok v
      refine ih ?_
      have hne : k ≠ a.1 := by
        intro he
        rw [he] at hk
        simp at hk
      simp only [List.map_cons, List.mem_cons] at h
      rcases h with h1 | h2
      · exact absurd h1 hne
      · exact h2
    | true => exact ⟨a.2, rfl⟩

/-- `filterMap` of an if-then-some-else-none function is mapping over the
filtered list. -/
theorem filterMap_if_eq_map_filter {α β : Type} (g : α → Bool) (f : α → β)
    (l : List α) :
    (l.filterMap fun p => if g p then some (f p) else none) =
      (l.filter g).map f := by
  induction l with
  | nil => rfl
  | cons a t ih =>
    by_cases hg : g a
    · simp [List.filterMap_cons, List.filter_cons, hg, ih]
    · simp [List.filterMap_cons, List.filter_cons, hg, ih]

/-! ### Claim theorems: traversal stop conditions and path shape -/

/-- C4: wherever the level below a selected node is absent, empty or not of
the expected shape, `traverse_category` stops and returns the path collected
so far, without raising: if the selected category's value is not a truthy
dict the path holds only the category name; if it is a truthy dict but the
selected sub-category's value is not a truthy non-empty list the path holds
only category and sub-category names; and on the concrete tree with category
A mapped to an empty dict the result is the path holding only A. -/
theorem traverse_category_stops_on_malformed (c : Chooser)
    (tree : List (String × PyVal)) (name : String) (v : PyVal)
    (hpick : pickStr c (tree.map Prod.fst) ("Select category:") = .ok name)
    (hlook : dictIndex tree name = .ok v) :
    ((truthy v && isDictVal v) = false →
      traverse_category c tree = .ok ⟨some name, none, none⟩) ∧
    (∀ (es : List (String × PyVal)) (subname : String) (sv : PyVal),
      v = .pyDict es → es ≠ [] →
      pickStr c (es.map Prod.fst) ("Select sub-category for " ++ name ++ ":") =
        .ok subname →
      dictIndex es subname = .ok sv →
      (truthy sv && isListVal sv && !(listItems sv).isEmpty) = false →
      traverse_category c tree = .ok ⟨some name, some subname, none⟩) ∧
    traverse_category c [(("A"), .pyDict [])] = .ok ⟨some ("A"), none, none⟩ := by
  refine ⟨?_, ?_, ?_⟩
  · intro hguard
    unfold traverse_category
    simp only [hpick, onOk_ok, hlook]
    rw [if_neg (by simp [hguard])]
  · intro es subname sv hv hes hpick2 hlook2 hguard2
    subst hv
    unfold traverse_category
    simp only [hpick, onOk_ok, hlook]
    rw [if_pos (by simp [truthy, isDictVal, hes])]
    simp only [dictEntries]
    rw [if_neg (by simp [List.isEmpty_iff, hes])]
    simp only [hpick2, onOk_ok, hlook2]
    rw [if_neg (by simp [hguard2])]
  · unfold traverse_category
    rw [show ([(("A"), PyVal.pyDict [])].map Prod.fst) = [("A")] from rfl,
      pickStr_singleton]
    rfl

/-- C4 witness: on the tree mapping A to a dict whose key B holds the
non-list value 5, the first-option chooser obtains the path (A, B) with no
item category. -/
theorem traverse_category_stops_on_malformed_witness :
    traverse_category firstChooser [(("A"), .pyDict [(("B"), .pyInt 5)])] =
      .ok ⟨some ("A"), some ("B"), none⟩ :=
  (traverse_category_stops_on_malformed firstChooser
      [(("A"), .pyDict [(("B"), .pyInt 5)])] ("A") (.pyDict [(("B"), .pyInt 5)])
      rfl rfl).2.1
    [(("B"), .pyInt 5)] ("B") (.pyInt 5) rfl (by simp) rfl rfl rfl

/-- C6: on every non-empty tree, for every chooser, the traversal returns a
path that contains the category name, and contains an item category name only
when it also contains a sub-category name. -/
theorem traverse_category_path_shape (c : Chooser)
    (tree : List (String × PyVal)) (h : tree ≠ []) :
    ∃ p, traverse_category c tree = .ok p ∧
      p.category_name.isSome = true ∧
      (p.item_category_name.isSome = true → p.sub_category_name.isSome = true) := by
  obtain ⟨name, hpick, hmem⟩ :=
    pickStr_mem c (tree.map Prod.fst) ("Select category:") (by simpa using h)
  obtain ⟨v, hlook⟩ := dictIndex_ok tree name hmem
  unfold traverse_category
  simp only [hpick, onOk_ok, hlook]
  by_cases hg : (truthy v && isDictVal v) = true
  · rw [if_pos hg]
    rcases v with _ | b | n | s | xs | es
    · simp [truthy, isDictVal] at hg
    · simp [truthy, isDictVal] at hg
    · simp [truthy, isDictVal] at hg
    · simp [truthy, isDictVal] at hg
    · simp [truthy, isDictVal] at hg
    · have hes : es ≠ [] := by
        intro hnil
        rw [hnil] at hg
        simp [truthy, isDictVal] at hg
      simp only [dictEntries]
      rw [if_neg (by simp [List.isEmpty_iff, hes])]
      obtain ⟨subname, hpick2, hmem2⟩ :=
        pickStr_mem c (es.map Prod.fst)
          ("Select sub-category for " ++ name ++ ":") (by simpa using hes)
      obtain ⟨sv, hlook2⟩ := dictIndex_ok es subname hmem2
      simp only [hpick2, onOk_ok, hlook2]
      by_cases hg2 : (truthy sv && isListVal sv && !(listItems sv).isEmpty) = true
      · rw [if_pos hg2]
        have hxs : listItems sv ≠ [] := by
          intro hnil
          rw [hnil] at hg2
          simp at hg2
        obtain ⟨x, hpick3⟩ :=
          pickVal_ok c (listItems sv)
            ("Select item category for " ++ subname ++ ":") hxs
        simp only [hpick3, onOk_ok]
        exact ⟨_, rfl, rfl, fun _ => rfl⟩
      · rw [if_neg hg2]
        exact ⟨_, rfl, rfl, fun _ => rfl⟩
  · rw [if_neg hg]
    exact ⟨_, rfl, rfl, by simp⟩

/-- C6 witness: the non-empty tree mapping A to `None` yields a path, which
contains the category name and satisfies the key-prefix condition. -/
theorem traverse_category_path_shape_witness :
    ∃ p, traverse_category firstChooser [(("A"), PyVal.pyNone)] = .ok p ∧
      p.category_name.isSome = true ∧
      (p.item_category_name.isSome = true → p.sub_category_name.isSome = true) :=
  traverse_category_path_shape firstChooser [(("A"), PyVal.pyNone)] (by simp)

/-! ### Claim theorems: ticket submission -/

/-- C7: with a priority in 1 to 4, submitting without attachments produces a
body that is exactly the JSON `ticket_data` object — whose keys are, in
order, email, subject, description, status, priority, category,
sub_category, item_category, workspace_id, source, with status 2, source 2
and the caller-supplied priority — and submitting with attachments wraps the
same object in a multipart form under the field `input_data`, followed by one
`attachments[]` part per existing file under its base filename. -/
theorem create_ticket_async_payload (isFile : String → Bool)
    (first_name last_name email description category sub_category : String)
    (item_category : Option String) (priority workspace_id : Int)
    (attachments : List String)
    (_hp : 1 ≤ priority ∧ priority ≤ 4) :
    ((create_ticket_async isFile first_name last_name email description category
        sub_category item_category priority workspace_id []).body =
      .jsonBody (ticket_data email (makeSummary first_name last_name description)
        description priority category sub_category item_category workspace_id)) ∧
    ((ticket_data email (makeSummary first_name last_name description) description
        priority category sub_category item_category workspace_id).map Prod.fst =
      [("email"), ("subject"), ("description"), ("status"), ("priority"),
       ("category"), ("sub_category"), ("item_category"), ("workspace_id"),
       ("source")]) ∧
    ((ticket_data email (makeSummary first_name last_name description) description
        priority category sub_category item_category workspace_id).lookup ("status") =
      some (.pyInt 2)) ∧
    ((ticket_data email (makeSummary first_name last_name description) description
        priority category sub_category item_category workspace_id).lookup ("source") =
      some (.pyInt 2)) ∧
    ((ticket_data email (makeSummary first_name last_name description) description
        priority category sub_category item_category workspace_id).lookup ("priority") =
      some (.pyInt priority)) ∧
    (attachments ≠ [] →
      (create_ticket_async isFile first_name last_name email description category
          sub_category item_category priority workspace_id attachments).body =
        .multipart ((("input_data"),
            .textPayload (ticket_data email (makeSummary first_name last_name description)
              description priority category sub_category item_category workspace_id)) ::
          attachments.filterMap fun p =>
            if isFile p then some (("attachments[]"), .filePart (basename p))
            else none)) := by
  refine ⟨rfl, rfl, rfl, rfl, rfl, ?_⟩
  intro ha
  unfold create_ticket_async
  rw [if_neg (by simpa [List.isEmpty_iff] using ha)]

/-- C7 witness: a concrete no-attachment call produces the plain JSON body,
at priority 2. -/
theorem create_ticket_async_payload_witness :
    (1 : Int) ≤ 2 ∧ (2 : Int) ≤ 4 ∧
      (create_ticket_async (fun _ => false) ("Ada") ("Lovelace") ("ada@ex.com")
          ("printer broken") ("Hardware") ("Printer") none 2 7 []).body =
        .jsonBody (ticket_data ("ada@ex.com")
          (makeSummary ("Ada") ("Lovelace") ("printer broken")) ("printer broken")
          2 ("Hardware") ("Printer") none 7) :=
  ⟨by decide, by decide,
    (create_ticket_async_payload (fun _ => false) ("Ada") ("Lovelace") ("ada@ex.com")
      ("printer broken") ("Hardware") ("Printer") none 2 7 []
      ⟨by decide, by decide⟩).1⟩

/-- C10: with a non-empty attachment list, every listed path that is not an
existing file is skipped with a warning rather than raising, and the request
is still the multipart form whose parts are `input_data` followed by exactly
the parts for the paths that are existing files, in order. -/
theorem create_ticket_async_skips_missing (isFile : String → Bool)
    (first_name last_name email description category sub_category : String)
    (item_category : Option String) (priority workspace_id : Int)
    (attachments : List String) (h : attachments ≠ []) :
    ((create_ticket_async isFile first_name last_name email description category
        sub_category item_category priority workspace_id attachments).warnings =
      attachments.filter fun p => !isFile p) ∧
    ((create_ticket_async isFile first_name last_name email description category
        sub_category item_category priority workspace_id attachments).body =
      .multipart ((("input_data"),
          .textPayload (ticket_data email (makeSummary first_name last_name description)
            description priority category sub_category item_category workspace_id)) ::
        (attachments.filter fun p => isFile p).map fun p =>
          (("attachments[]"), .filePart (basename p)))) := by
  unfold create_ticket_async
  rw [if_neg (by simpa [List.isEmpty_iff] using h)]
  refine ⟨rfl, ?_⟩
  rw [filterMap_if_eq_map_filter (fun p => isFile p)
    (fun p => (("attachments[]"), FormValue.filePart (basename p))) attachments]

/-- C10 witness: of two listed paths of which only one is an existing file,
the missing one is warned about and only the existing one becomes an
`attachments[]` part. -/
theorem create_ticket_async_skips_missing_witness :
    ((create_ticket_async (fun p => p == ("a.txt")) ("Ada") ("Lovelace")
        ("ada@ex.com") ("help") ("HW") ("P") none 2 7
        [("a.txt"), ("missing.bin")]).warnings = [("missing.bin")]) ∧
      ((create_ticket_async (fun p => p == ("a.txt")) ("Ada") ("Lovelace")
          ("ada@ex.com") ("help") ("HW") ("P") none 2 7
          [("a.txt"), ("missing.bin")]).body =
        .multipart [(("input_data"),
            .textPayload (ticket_data ("ada@ex.com")
              (makeSummary ("Ada") ("Lovelace") ("help")) ("help") 2 ("HW") ("P")
              none 7)),
          (("attachments[]"), .filePart ("a.txt"))]) := by
  have h := create_ticket_async_skips_missing (fun p => p == ("a.txt")) ("Ada")
    ("Lovelace") ("ada@ex.com") ("help") ("HW") ("P") none 2 7
    [("a.txt"), ("missing.bin")] (by simp)
  have e1 : basename ("a.txt") = ("a.txt") := rfl
  simpa [e1] using h

/-! ### Claim theorems: error propagation -/

/-- C9 counterexample: with a transport whose every attempt faults, the
request wrapper raises a classified error, yet `get_user_info` returns the
non-error result `None` — the error is recovered inside an intermediate
layer instead of propagating to the top-level orchestration. -/
theorem get_user_info_error_not_propagated :
    (make_request failingTransport).result =
        some (.error (.exhausted MAX_RETRIES ("connection refused"))) ∧
      get_user_info failingTransport failingTransport ("user@example.com") =
        none := ⟨rfl, rfl⟩

/-- C9 (amended): `get_user_info` does not let errors propagate — whenever
its requester lookup raises any `APIError`, the function catches it and
substitutes the non-error result `None`. -/
theorem get_user_info_swallows (reqTransport agTransport : Nat → AttemptOutcome)
    (email : String) (e : APIError)
    (h : (make_request reqTransport).result = some (.error e)) :
    get_user_info reqTransport agTransport email = none := by
  unfold get_user_info get_user_info_body liftRequest
  rw [h]
  rfl

/-- C9 witness: with the all-faults transport, whose wrapper raises the
exhaustion error, `get_user_info` returns `None`. -/
theorem get_user_info_swallows_witness :
    get_user_info failingTransport failingTransport ("a@b.c") = none :=
  get_user_info_swallows failingTransport failingTransport ("a@b.c")
    (.exhausted MAX_RETRIES ("connection refused")) rfl

end TicketCreator
